import Mathlib

/-!
# fe-rocketchat-commands: a shallow embedding

The embedded file is `src/fe-common/fe-rocketchat-commands.c`.  It binds three
user commands to remote method calls and prints the results.

Modelling conventions.

* A `json_t *` is an `Option Json`; `none` is the C `NULL` pointer.
* A `const char *` is an `Option String`; `none` is `NULL`.  A Lean `String`
  is valid Unicode, which is also what jansson demands of a C string before it
  builds a JSON string from it.
* `printtext` is the text sink.  A call appends one `PrintLine` holding the
  server, the target, the level and the text obtained from the printf-style
  format.  What the sink does with the text afterwards is outside this file.
* `rocketchat_call` is the only way a command reaches the protocol layer.  A
  command is modelled by the list of calls it issues.
* Functions that the C file calls but does not define (`rocketchat_format_message`,
  the GLib date functions, `rocketchat_query_get_rid`, `module_get_uniq_id_str`)
  are passed in through the `Env` record.
-/

namespace RocketChat

/-! ## jansson values -/

/-- A jansson value.  Objects keep their keys in insertion order. -/
inductive Json where
  | null
  | jtrue
  | jfalse
  | integer (n : Int)
  | real (bits : Nat)
  | string (s : String)
  | array (xs : List Json)
  | object (kvs : List (String × Json))

/-- A `json_t *`: either `NULL` or a value. -/
abbrev JsonPtr := Option Json

/-- A `const char *`: either `NULL` or a string. -/
abbrev CStr := Option String

/-- The function `json_object_get`: `NULL` when the pointer is `NULL`, the value is not an
object, or the key is absent. -/
def json_object_get (json : JsonPtr) (key : String) : JsonPtr :=
  match json with
  | some (Json.object kvs) => kvs.lookup key
  | _ => none

/-- The function `json_string_value`: `NULL` unless the value is a JSON string. -/
def json_string_value (json : JsonPtr) : CStr :=
  match json with
  | some (Json.string s) => some s
  | _ => none

/-- The function `json_integer_value`: `0` unless the value is a JSON integer. -/
def json_integer_value (json : JsonPtr) : Int :=
  match json with
  | some (Json.integer n) => n
  | _ => 0

/-- The function `json_array_size`: `0` unless the value is a JSON array. -/
def json_array_size (json : JsonPtr) : Nat :=
  match json with
  | some (Json.array xs) => xs.length
  | _ => 0

/-- The function `json_array_get`: `NULL` unless the value is an array and the index is in
range. -/
def json_array_get (json : JsonPtr) (index : Nat) : JsonPtr :=
  match json with
  | some (Json.array xs) => xs.get? index
  | _ => none

/-- The constructor `json_object()`: a fresh empty object. -/
def json_object : JsonPtr := some (Json.object [])

/-- The constructor `json_array()`: a fresh empty array. -/
def json_array : JsonPtr := some (Json.array [])

/-- The constructor `json_integer(n)`. -/
def json_integer (n : Int) : JsonPtr := some (Json.integer n)

/-- The constructor `json_null()`: the JSON null value, which is not the `NULL` pointer. -/
def json_null : JsonPtr := some Json.null

/-- The constructor `json_string(s)`: `NULL` when `s` is `NULL`. -/
def json_string (s : CStr) : JsonPtr :=
  match s with
  | some v => some (Json.string v)
  | none => none

/-- Replace the value bound to `key`, or add the binding at the end. -/
def setKey (key : String) (value : Json) : List (String × Json) → List (String × Json)
  | [] => [(key, value)]
  | (k, v) :: rest =>
    if k = key then (key, value) :: rest else (k, v) :: setKey key value rest

/-- The function `json_object_set_new`: the object after the call.  The call fails and
leaves the object as it was when the value is `NULL` or the target is not an
object. -/
def json_object_set_new (obj : JsonPtr) (key : String) (value : JsonPtr) : JsonPtr :=
  match obj, value with
  | some (Json.object kvs), some v => some (Json.object (setKey key v kvs))
  | _, _ => obj

/-- The functions `json_array_append` and `json_array_append_new`: the array after the call.
The call fails and leaves the array as it was when the value is `NULL` or the
target is not an array.  The two C functions differ only in reference
counting. -/
def json_array_append (arr : JsonPtr) (value : JsonPtr) : JsonPtr :=
  match arr, value with
  | some (Json.array xs), some v => some (Json.array (xs ++ [v]))
  | _, _ => arr

/-- The body of `json_array_foreach(array, index, value)`, which expands to
`for (index = 0; index < json_array_size(array) && (value = json_array_get(array, index)); index++)`.
The first argument bounds the number of iterations still allowed. -/
def json_array_foreach {α : Type} (array : JsonPtr) (body : Nat → Json → List α) :
    Nat → Nat → List α
  | 0, _ => []
  | fuel + 1, index =>
    if index < json_array_size array then
      match json_array_get array index with
      | some value => body index value ++ json_array_foreach array body fuel (index + 1)
      | none => []
    else []

/-! ## The host application -/

/-- A server handle (`ROCKETCHAT_SERVER_REC *`). -/
structure ROCKETCHAT_SERVER_REC where
  tag : Nat
deriving DecidableEq, Repr

/-- Message levels used by `printtext`. -/
inductive MsgLevel where
  | MSGLEVEL_CLIENTNOTICE
  | MSGLEVEL_CLIENTCRAP
  | MSGLEVEL_CLIENTERROR
deriving DecidableEq, Repr

/-- One call of `printtext(server, target, level, format, ...)`. -/
structure PrintLine where
  server : ROCKETCHAT_SERVER_REC
  target : CStr
  level : MsgLevel
  text : String
deriving DecidableEq, Repr

/-- How the C library prints a `%s` argument: a `NULL` pointer is printed as
`(null)`. -/
def fmtS (s : CStr) : String :=
  match s with
  | some v => v
  | none => "(null)"

/-- A window item (`WI_ITEM_REC`): its type id and the result of its
`get_target` method. -/
structure WI_ITEM_REC where
  type : Int
  target : CStr

/-- Functions called by the C file and defined elsewhere. -/
structure Env where
  /-- The function `rocketchat_format_message(server, message)`. -/
  rocketchat_format_message : ROCKETCHAT_SERVER_REC → JsonPtr → CStr
  /-- The composition `g_date_time_format(g_date_time_new_from_unix_local(t), "%c")`. -/
  format_unix_local : Int → CStr
  /-- The function `module_get_uniq_id_str(module, id)`. -/
  module_get_uniq_id_str : String → String → Int
  /-- The function `rocketchat_query_get_rid((ROCKETCHAT_QUERY_REC *)item)`. -/
  rocketchat_query_get_rid : WI_ITEM_REC → CStr

/-- The state a result callback works on: the text sink and the call context
it was handed. -/
structure CbState where
  out : List PrintLine
  userdata : JsonPtr

/-! ## The result callbacks -/

/-- The line printed for one channel by the loop body of
`result_cb_browseChannels`. -/
def channelLine (server : ROCKETCHAT_SERVER_REC) (channel : Json) : PrintLine :=
  let id := json_string_value (json_object_get (some channel) "_id")
  let name := json_string_value (json_object_get (some channel) "name")
  let fname := json_string_value (json_object_get (some channel) "fname")
  { server := server, target := none, level := MsgLevel.MSGLEVEL_CLIENTCRAP,
    text := fmtS (if fname.isSome then fname else name) ++ " (ID: " ++ fmtS id ++ ")" }

/-- The callback `result_cb_browseChannels(server, json, userdata)`. -/
def result_cb_browseChannels (server : ROCKETCHAT_SERVER_REC) (json : JsonPtr)
    (userdata : JsonPtr) : CbState :=
  let error := json_object_get json "error"
  if error.isSome then
    { out := [], userdata := userdata }
  else
    let result := json_object_get json "result"
    let channels := json_object_get result "results"
    { out := json_array_foreach channels (fun _ channel => [channelLine server channel])
               (json_array_size channels) 0,
      userdata := userdata }

/-- The line printed for one history message. -/
def historyLine (env : Env) (server : ROCKETCHAT_SERVER_REC) (target : CStr)
    (message : JsonPtr) : PrintLine :=
  let username := json_string_value (json_object_get (json_object_get message "u") "username")
  let msg := env.rocketchat_format_message server message
  let ts := json_integer_value (json_object_get (json_object_get message "ts") "$date")
  let datetime_formatted := env.format_unix_local (Int.tdiv ts 1000)
  { server := server, target := target, level := MsgLevel.MSGLEVEL_CLIENTCRAP,
    text := "<" ++ fmtS username ++ "> " ++ fmtS msg ++ " (" ++ fmtS datetime_formatted ++ ")" }

/-- The loop `for (index = json_array_size(messages); index > 0; index--)` of
`result_cb_loadHistory`, started at the given value of `index`. -/
def loadHistoryLoop (env : Env) (server : ROCKETCHAT_SERVER_REC) (target : CStr)
    (messages : JsonPtr) : Nat → List PrintLine
  | 0 => []
  | index + 1 =>
    let message := json_array_get messages index
    historyLine env server target message :: loadHistoryLoop env server target messages index

/-- The callback `result_cb_loadHistory(server, json, userdata)`. -/
def result_cb_loadHistory (env : Env) (server : ROCKETCHAT_SERVER_REC) (json : JsonPtr)
    (userdata : JsonPtr) : CbState :=
  let error := json_object_get json "error"
  if error.isSome then
    { out := [], userdata := userdata }
  else
    let target := json_string_value (json_object_get userdata "target")
    let result := json_object_get json "result"
    let messages := json_object_get result "messages"
    { out := loadHistoryLoop env server target messages (json_array_size messages),
      userdata := userdata }

/-! ## The commands -/

/-- The result callbacks of this file, as the function pointers handed to
`rocketchat_result_callback_new`. -/
inductive ResultFn where
  | result_cb_browseChannels
  | result_cb_loadHistory
deriving DecidableEq, Repr

/-- Invoke a result callback through its function pointer. -/
def ResultFn.run (env : Env) : ResultFn → ROCKETCHAT_SERVER_REC → JsonPtr → JsonPtr → CbState
  | ResultFn.result_cb_browseChannels => RocketChat.result_cb_browseChannels
  | ResultFn.result_cb_loadHistory => RocketChat.result_cb_loadHistory env

/-- A callback record (`ROCKETCHAT_RESULT_CALLBACK_REC`): the function and the
call context. -/
structure ROCKETCHAT_RESULT_CALLBACK_REC where
  func : ResultFn
  userdata : JsonPtr

/-- Modelled from the spec: the body of `rocketchat_result_callback_new(fn, userdata)`
is not part of the embedded file.  The spec describes it as pairing a callback
with its per-call context. -/
def rocketchat_result_callback_new (func : ResultFn) (userdata : JsonPtr) :
    ROCKETCHAT_RESULT_CALLBACK_REC :=
  { func := func, userdata := userdata }

/-- One call of `rocketchat_call(server, method, params, callback)`. -/
structure CallRec where
  server : ROCKETCHAT_SERVER_REC
  method : String
  params : JsonPtr
  callback : ROCKETCHAT_RESULT_CALLBACK_REC

/-- The command `cmd_rocketchat_channels(data, server, item)`: the calls it issues. -/
def cmd_rocketchat_channels (_data : String) (server : ROCKETCHAT_SERVER_REC)
    (_item : Option WI_ITEM_REC) : List CallRec :=
  let param := json_object
  let param := json_object_set_new param "page" (json_integer 0)
  let param := json_object_set_new param "offset" (json_integer 0)
  let param := json_object_set_new param "limit" (json_integer 100)
  let params := json_array
  let params := json_array_append params param
  let callback := rocketchat_result_callback_new ResultFn.result_cb_browseChannels none
  [{ server := server, method := "browseChannels", params := params, callback := callback }]

/-- The command `cmd_rocketchat_history(data, server, item)`: the calls it issues. -/
def cmd_rocketchat_history (env : Env) (_data : String) (server : ROCKETCHAT_SERVER_REC)
    (item : WI_ITEM_REC) : List CallRec :=
  let target := item.target
  let rid :=
    if item.type = env.module_get_uniq_id_str "WINDOW ITEM TYPE" "QUERY" then
      env.rocketchat_query_get_rid item
    else
      target
  let params := json_array
  let params := json_array_append params (json_string rid)
  let params := json_array_append params json_null
  let params := json_array_append params (json_integer 10)
  let params := json_array_append params json_null
  let userdata := json_object
  let userdata := json_object_set_new userdata "target" (json_string target)
  let callback := rocketchat_result_callback_new ResultFn.result_cb_loadHistory userdata
  [{ server := server, method := "loadHistory", params := params, callback := callback }]

/-! ## The pending-call registry

The registry lives behind `rocketchat_call`; its code is not part of the
embedded file. -/

/-- Modelled from the spec: a pending call entry, which the spec gives a
correlation id, a callback and an opaque context.  The registry code is missing
from the embedded file. -/
structure Entry where
  id : Nat
  callback : ResultFn
  context : JsonPtr

/-- Modelled from the spec: the pending-call registry of one connection, a
monotonically increasing correlation-id counter and the outstanding entries.
The registry code is missing from the embedded file. -/
structure Registry where
  next : Nat
  entries : List Entry

/-- Modelled from the spec: the registry of a fresh connection, whose code is
missing from the embedded file. -/
def Registry.empty : Registry := { next := 0, entries := [] }

/-- Modelled from the spec: `register(callback, context) -> correlation_id`,
missing from the embedded file.  It allocates a fresh id from the monotonic
counter, stores the entry and returns the id. -/
def register (r : Registry) (callback : ResultFn) (context : JsonPtr) : Registry × Nat :=
  ({ next := r.next + 1,
     entries := r.entries ++ [{ id := r.next, callback := callback, context := context }] },
   r.next)

/-- Modelled from the spec: the outcome `Entry | NotFound` of `resolve`, whose
code is missing from the embedded file. -/
inductive Resolved where
  | Found (entry : Entry)
  | NotFound

/-- Modelled from the spec: `resolve(correlation_id, response) -> Entry | NotFound`,
missing from the embedded file.  It removes and returns the entry matching the
id, or signals `NotFound` when no such call is outstanding.  The response plays
no part in the lookup and is left out. -/
def resolve (r : Registry) (id : Nat) : Registry × Resolved :=
  match r.entries.find? (fun e => e.id == id) with
  | some e => ({ r with entries := r.entries.eraseP (fun e => e.id == id) }, Resolved.Found e)
  | none => (r, Resolved.NotFound)

/-- Modelled from the spec: `discard_all() -> sequence of Entry`, missing from
the embedded file.  It removes every outstanding entry and returns them. -/
def discard_all (r : Registry) : Registry × List Entry :=
  ({ r with entries := [] }, r.entries)

/-- An operation on the registry. -/
inductive Op where
  | register (callback : ResultFn) (context : JsonPtr)
  | resolve (id : Nat)
  | discard_all

/-- One operation: the registry afterwards and the entries handed to the
callback dispatcher by it. -/
def Registry.step (r : Registry) : Op → Registry × List Entry
  | Op.register callback context => ((register r callback context).1, [])
  | Op.resolve id =>
    match resolve r id with
    | (r1, Resolved.Found e) => (r1, [e])
    | (r1, Resolved.NotFound) => (r1, [])
  | Op.discard_all => discard_all r

/-- A sequence of operations: the registry afterwards and all entries handed
to the dispatcher, in order. -/
def Registry.run (r : Registry) : List Op → Registry × List Entry
  | [] => (r, [])
  | op :: ops =>
    let s := r.step op
    let t := Registry.run s.1 ops
    (t.1, s.2 ++ t.2)

/-- The registry invariant: every outstanding id was issued by the counter, and
no two outstanding entries share an id. -/
def Registry.Inv (r : Registry) : Prop :=
  (∀ e ∈ r.entries, e.id < r.next) ∧ (r.entries.map Entry.id).Nodup

/-- An id that was issued and is no longer outstanding. -/
def Registry.Dead (i : Nat) (r : Registry) : Prop :=
  i < r.next ∧ ∀ e ∈ r.entries, e.id ≠ i

/-! ## Concrete data used in the examples -/

/-- A server handle. -/
def server0 : ROCKETCHAT_SERVER_REC := { tag := 0 }

/-- An environment: the formatted message is the `msg` field, the three
instants `1`, `2`, `3` are printed as `T1`, `T2`, `T3`, the query type id is
`7`, and every query has room id `room42`. -/
def env0 : Env :=
  { rocketchat_format_message := fun _ m => json_string_value (json_object_get m "msg"),
    format_unix_local := fun t =>
      if t = 1 then some "T1" else if t = 2 then some "T2" else if t = 3 then some "T3"
      else none,
    module_get_uniq_id_str := fun _ _ => 7,
    rocketchat_query_get_rid := fun _ => some "room42" }

/-- A history message by `user` with text `msg` sent at `ts` milliseconds. -/
def mkMessage (user msg : String) (ts : Int) : Json :=
  Json.object [("u", Json.object [("username", Json.string user)]),
               ("msg", Json.string msg),
               ("ts", Json.object [("$date", Json.integer ts)])]

/-- Three history messages, newest first. -/
def messages321 : List Json :=
  [mkMessage "carol" "third" 3000, mkMessage "bob" "second" 2000, mkMessage "alice" "first" 1000]

/-- A success response carrying `messages321`. -/
def historyResponse : JsonPtr :=
  some (Json.object [("id", Json.string "1"),
                     ("result", Json.object [("messages", Json.array messages321)])])

/-- A success response with an empty history. -/
def emptyHistoryResponse : JsonPtr :=
  some (Json.object [("id", Json.string "1"),
                     ("result", Json.object [("messages", Json.array [])])])

/-- The channel of the listing scenario. -/
def generalChannel : Json :=
  Json.object [("_id", Json.string "abc"), ("name", Json.string "general"), ("fname", Json.null)]

/-- A success response listing `generalChannel`. -/
def channelsResponse : JsonPtr :=
  some (Json.object [("id", Json.string "1"),
                     ("result", Json.object [("results", Json.array [generalChannel])])])

/-- A response with both an `error` and a non-empty `result`. -/
def errorResponse : JsonPtr :=
  some (Json.object [("id", Json.string "1"),
                     ("error", Json.object [("error", Json.integer 500)]),
                     ("result", Json.object [("results", Json.array [generalChannel]),
                                             ("messages", Json.array messages321)])])

/-- A success response without a `result`. -/
def noResultResponse : JsonPtr := some (Json.object [("id", Json.string "1")])

/-- A success response whose `result` is an empty object. -/
def emptyResultResponse : JsonPtr := some (Json.object [("result", Json.object [])])

/-- The call context of a history request issued in `#general`. -/
def generalContext : JsonPtr := some (Json.object [("target", Json.string "#general")])

/-- A channel window item. -/
def channelItem : WI_ITEM_REC := { type := 3, target := some "#general" }

/-- A query window item. -/
def queryItem : WI_ITEM_REC := { type := 7, target := some "alice" }

/-- A window item that is not a query and whose `get_target` gives `NULL`. -/
def nullTargetItem : WI_ITEM_REC := { type := 3, target := none }

/-! ## Auxiliary facts about the jansson accessors and the two loops -/

theorem lookup_isSome_of_mem (key : String) (v : Json) (kvs : List (String × Json))
    (h : (key, v) ∈ kvs) : (kvs.lookup key).isSome = true := by
  induction kvs with
  | nil => cases h
  | cons p rest ih =>
    obtain ⟨k, w⟩ := p
    by_cases hk : key = k
    · subst hk
      simp [List.lookup]
    · have hmem : (key, v) ∈ rest := by
        rcases List.mem_cons.mp h with h1 | h1
        · exact absurd (congrArg Prod.fst h1) hk
        · exact h1
      have hb : (key == k) = false := by simpa using hk
      simp [List.lookup, hb, ih hmem]

theorem error_present_of_mem (v : Json) (kvs : List (String × Json))
    (h : ("error", v) ∈ kvs) :
    (json_object_get (some (Json.object kvs)) "error").isSome = true :=
  lookup_isSome_of_mem "error" v kvs h

theorem json_array_size_of_not_array (p : JsonPtr) (h : ∀ xs, p ≠ some (Json.array xs)) :
    json_array_size p = 0 := by
  unfold json_array_size
  split
  · rename_i xs
    exact absurd rfl (h xs)
  · rfl

theorem loadHistoryLoop_array (env : Env) (server : ROCKETCHAT_SERVER_REC) (target : CStr)
    (xs : List Json) (n : Nat) (hn : n ≤ xs.length) :
    loadHistoryLoop env server target (some (Json.array xs)) n
      = ((xs.take n).reverse).map (fun m => historyLine env server target (some m)) := by
  induction n with
  | zero => simp [loadHistoryLoop]
  | succ k ih =>
    have hk : k < xs.length := hn
    have hget : json_array_get (some (Json.array xs)) k = some xs[k] := by
      simp [json_array_get, List.getElem?_eq_getElem hk]
    have htake : xs.take (k + 1) = xs.take k ++ [xs[k]] := by
      rw [List.take_succ, List.getElem?_eq_getElem hk]
      rfl
    show historyLine env server target (json_array_get (some (Json.array xs)) k)
        :: loadHistoryLoop env server target (some (Json.array xs)) k = _
    rw [hget, ih (Nat.le_of_lt hk), htake, List.reverse_append]
    rfl

theorem json_array_foreach_array {α : Type} (f : Json → List α) (xs : List Json) :
    ∀ fuel index, xs.length - index ≤ fuel →
      json_array_foreach (some (Json.array xs)) (fun _ v => f v) fuel index
        = ((xs.drop index).map f).flatten := by
  intro fuel
  induction fuel with
  | zero =>
    intro index h
    have hle : xs.length ≤ index := by omega
    simp [json_array_foreach, List.drop_eq_nil_of_le hle]
  | succ k ih =>
    intro index h
    by_cases hlt : index < xs.length
    · have hget : json_array_get (some (Json.array xs)) index = some xs[index] := by
        simp [json_array_get, List.getElem?_eq_getElem hlt]
      have hdrop : xs.drop index = xs[index] :: xs.drop (index + 1) :=
        List.drop_eq_getElem_cons hlt
      have hrec := ih (index + 1) (by omega)
      rw [hdrop, List.map_cons, List.flatten_cons, ← hrec]
      simp only [json_array_foreach, json_array_size, hlt, if_true, hget]
    · have hle : xs.length ≤ index := by omega
      simp [json_array_foreach, json_array_size, hlt, List.drop_eq_nil_of_le hle]

theorem json_array_foreach_fuel {α : Type} (array : JsonPtr) (body : Nat → Json → List α) :
    ∀ fuel index, json_array_size array - index ≤ fuel →
      json_array_foreach array body (fuel + 1) index
        = json_array_foreach array body fuel index := by
  intro fuel
  induction fuel with
  | zero =>
    intro index h
    have hle : ¬ index < json_array_size array := by omega
    simp [json_array_foreach, hle]
  | succ k ih =>
    intro index h
    by_cases hlt : index < json_array_size array
    · have hrec := ih (index + 1) (by omega)
      rw [json_array_foreach, json_array_foreach.eq_def array body (k + 1) index]
      simp only [hlt, if_true]
      cases json_array_get array index with
      | none => rfl
      | some value => simp only [hrec]
    · rw [json_array_foreach, json_array_foreach.eq_def array body (k + 1) index]
      simp only [hlt, if_false]

theorem browseChannels_out_array (server : ROCKETCHAT_SERVER_REC) (json userdata : JsonPtr)
    (cs : List Json) (herr : json_object_get json "error" = none)
    (hres : json_object_get (json_object_get json "result") "results" = some (Json.array cs)) :
    (result_cb_browseChannels server json userdata).out = cs.map (channelLine server) := by
  have h := json_array_foreach_array (fun c => [channelLine server c]) cs cs.length 0
    (by omega)
  have hflat : ∀ l : List Json,
      (l.map (fun c => [channelLine server c])).flatten = l.map (channelLine server) := by
    intro l
    induction l with
    | nil => rfl
    | cons c rest ih => simp [ih]
  simp only [result_cb_browseChannels, herr, hres, json_array_size]
  rw [List.drop_zero, hflat] at h
  simpa using h

theorem loadHistory_out_array (env : Env) (server : ROCKETCHAT_SERVER_REC)
    (json userdata : JsonPtr) (ms : List Json) (herr : json_object_get json "error" = none)
    (hres : json_object_get (json_object_get json "result") "messages" = some (Json.array ms)) :
    (result_cb_loadHistory env server json userdata).out
      = ms.reverse.map (fun m => historyLine env server
          (json_string_value (json_object_get userdata "target")) (some m)) := by
  have h := loadHistoryLoop_array env server
    (json_string_value (json_object_get userdata "target")) ms ms.length (Nat.le_refl _)
  simp only [result_cb_loadHistory, herr, hres, json_array_size]
  simpa using h

theorem historyLine_target (env : Env) (server : ROCKETCHAT_SERVER_REC) (target : CStr)
    (m : JsonPtr) : (historyLine env server target m).target = target := rfl

theorem loadHistoryLoop_target (env : Env) (server : ROCKETCHAT_SERVER_REC) (target : CStr)
    (messages : JsonPtr) (n : Nat) :
    ∀ l ∈ loadHistoryLoop env server target messages n, l.target = target := by
  induction n with
  | zero => intro l hl; simp [loadHistoryLoop] at hl
  | succ k ih =>
    intro l hl
    simp only [loadHistoryLoop, List.mem_cons] at hl
    rcases hl with h | h
    · rw [h]; rfl
    · exact ih l h

/-! ## The claims about the callbacks and the commands -/

/-- C1: for a response without an `error` key whose `result.messages` is an
array of `n` messages, `result_cb_loadHistory` emits exactly `n` lines, the
`k`-th line is the rendering of message `n - 1 - k`, and so the output is the
rendering of the reversed array.  The statement holds for every array, so the
order depends on the position alone. -/
theorem C1_history_is_positional_reverse (env : Env) (server : ROCKETCHAT_SERVER_REC)
    (json userdata : JsonPtr) (ms : List Json)
    (herr : json_object_get json "error" = none)
    (hres : json_object_get (json_object_get json "result") "messages"
      = some (Json.array ms)) :
    (result_cb_loadHistory env server json userdata).out.length = ms.length
    ∧ (∀ k, k < ms.length →
        (result_cb_loadHistory env server json userdata).out.get? k
          = some (historyLine env server
              (json_string_value (json_object_get userdata "target"))
              (ms.get? (ms.length - 1 - k))))
    ∧ (result_cb_loadHistory env server json userdata).out
        = ms.reverse.map (fun m => historyLine env server
            (json_string_value (json_object_get userdata "target")) (some m)) := by
  have hout := loadHistory_out_array env server json userdata ms herr hres
  refine ⟨?_, ?_, hout⟩
  · rw [hout]; simp
  · intro k hk
    have hj : ms.length - 1 - k < ms.length := by omega
    rw [hout, List.get?_eq_getElem?, List.getElem?_map, List.getElem?_reverse hk,
      List.get?_eq_getElem?, List.getElem?_eq_getElem hj]
    rfl

/-- C1 at three messages with timestamps `3000, 2000, 1000`: they are printed
in the order `T1, T2, T3`. -/
theorem C1_history_is_positional_reverse_witness :
    json_object_get historyResponse "error" = none
    ∧ json_object_get (json_object_get historyResponse "result") "messages"
        = some (Json.array messages321)
    ∧ (result_cb_loadHistory env0 server0 historyResponse generalContext).out.length = 3
    ∧ (result_cb_loadHistory env0 server0 historyResponse generalContext).out.map
          (fun l => l.text)
        = ["<alice> first (T1)", "<bob> second (T2)", "<carol> third (T3)"] := by
  have h := C1_history_is_positional_reverse env0 server0 historyResponse generalContext
    messages321 rfl rfl
  refine ⟨rfl, rfl, h.1, ?_⟩
  rw [h.2.2]
  decide

/-- C2: for every response object that has an `error` key, whatever its value
and whatever else the object holds, `result_cb_browseChannels` and
`result_cb_loadHistory` emit nothing: no channel and no message is rendered. -/
theorem C2_error_response_renders_nothing (env : Env) (server : ROCKETCHAT_SERVER_REC)
    (kvs : List (String × Json)) (v : Json) (userdata : JsonPtr)
    (h : ("error", v) ∈ kvs) :
    (result_cb_browseChannels server (some (Json.object kvs)) userdata).out = []
    ∧ (result_cb_loadHistory env server (some (Json.object kvs)) userdata).out = [] := by
  have he := error_present_of_mem v kvs h
  constructor
  · simp only [result_cb_browseChannels, he, if_true]
  · simp only [result_cb_loadHistory, he, if_true]

/-- C2 at a response that has an `error` next to a `result` with one channel
and three messages. -/
theorem C2_error_response_renders_nothing_witness :
    ("error", Json.object [("error", Json.integer 500)]) ∈
        [("id", Json.string "1"),
         ("error", Json.object [("error", Json.integer 500)]),
         ("result", Json.object [("results", Json.array [generalChannel]),
                                 ("messages", Json.array messages321)])]
    ∧ (result_cb_browseChannels server0 errorResponse none).out = []
    ∧ (result_cb_loadHistory env0 server0 errorResponse generalContext).out = [] :=
  ⟨List.mem_cons_of_mem _ (List.mem_cons_self _ _),
   C2_error_response_renders_nothing env0 server0 _ _ _
     (List.mem_cons_of_mem _ (List.mem_cons_self _ _))⟩

/-- C3, as stated, fails: on a response with an `error` key neither callback
emits a line. -/
theorem C3_no_notice_counterexample :
    ¬ (1 ≤ (result_cb_browseChannels server0 errorResponse none).out.length)
    ∧ ¬ (1 ≤ (result_cb_loadHistory env0 server0 errorResponse generalContext).out.length) := by
  decide

/-- C3, amended: for every response object that has an `error` key, each of
`result_cb_browseChannels` and `result_cb_loadHistory` returns at once, with
zero lines emitted and the call context as it was handed in. -/
theorem C3_error_response_is_silent (env : Env) (server : ROCKETCHAT_SERVER_REC)
    (kvs : List (String × Json)) (v : Json) (userdata : JsonPtr)
    (h : ("error", v) ∈ kvs) :
    ((result_cb_browseChannels server (some (Json.object kvs)) userdata).out.length = 0
      ∧ (result_cb_browseChannels server (some (Json.object kvs)) userdata).userdata = userdata)
    ∧ ((result_cb_loadHistory env server (some (Json.object kvs)) userdata).out.length = 0
      ∧ (result_cb_loadHistory env server (some (Json.object kvs)) userdata).userdata
          = userdata) := by
  have he := error_present_of_mem v kvs h
  refine ⟨⟨?_, ?_⟩, ⟨?_, ?_⟩⟩
  · simp only [result_cb_browseChannels, he, if_true, List.length_nil]
  · simp only [result_cb_browseChannels, he, if_true]
  · simp only [result_cb_loadHistory, he, if_true, List.length_nil]
  · simp only [result_cb_loadHistory, he, if_true]

/-- C3, amended, at a response whose only key is `error`, bound to JSON null. -/
theorem C3_error_response_is_silent_witness :
    ("error", Json.null) ∈ [("error", Json.null)]
    ∧ ((result_cb_browseChannels server0 (some (Json.object [("error", Json.null)]))
          generalContext).out.length = 0
      ∧ (result_cb_browseChannels server0 (some (Json.object [("error", Json.null)]))
          generalContext).userdata = generalContext)
    ∧ ((result_cb_loadHistory env0 server0 (some (Json.object [("error", Json.null)]))
          generalContext).out.length = 0
      ∧ (result_cb_loadHistory env0 server0 (some (Json.object [("error", Json.null)]))
          generalContext).userdata = generalContext) :=
  ⟨List.mem_cons_self _ _,
   C3_error_response_is_silent env0 server0 _ _ _ (List.mem_cons_self _ _)⟩

/-- C4: for every input string, server and window item, `cmd_rocketchat_channels`
issues exactly one call: method `browseChannels`, a parameter list with the
single element `{page: 0, offset: 0, limit: 100}`, the callback
`result_cb_browseChannels` and a null context. -/
theorem C4_channels_request (data : String) (server : ROCKETCHAT_SERVER_REC)
    (item : Option WI_ITEM_REC) :
    cmd_rocketchat_channels data server item
      = [{ server := server,
           method := "browseChannels",
           params := some (Json.array [Json.object [("page", Json.integer 0),
                                                    ("offset", Json.integer 0),
                                                    ("limit", Json.integer 100)]]),
           callback := { func := ResultFn.result_cb_browseChannels, userdata := none } }] := by
  rfl

/-- C5: for a response without an `error` key whose `result.results` is an
array of `n` channels, `result_cb_browseChannels` emits exactly `n` lines in
array order; for a channel with string `_id` and string `name` the line is
`<display> (ID: <_id>)`, where the display name is `fname` when `fname` is a
JSON string and `name` otherwise. -/
theorem C5_channel_listing (server : ROCKETCHAT_SERVER_REC) (json userdata : JsonPtr)
    (cs : List Json)
    (herr : json_object_get json "error" = none)
    (hres : json_object_get (json_object_get json "result") "results"
      = some (Json.array cs)) :
    (result_cb_browseChannels server json userdata).out.length = cs.length
    ∧ ∀ (i : Nat) (c : Json) (id name : String),
        cs.get? i = some c →
        json_object_get (some c) "_id" = some (Json.string id) →
        json_object_get (some c) "name" = some (Json.string name) →
        (result_cb_browseChannels server json userdata).out.get? i
          = some { server := server, target := none,
                   level := MsgLevel.MSGLEVEL_CLIENTCRAP,
                   text := (match json_object_get (some c) "fname" with
                            | some (Json.string fname) => fname
                            | _ => name) ++ " (ID: " ++ id ++ ")" } := by
  have hout := browseChannels_out_array server json userdata cs herr hres
  refine ⟨by rw [hout]; simp, ?_⟩
  intro i c id name hc hid hname
  rw [List.get?_eq_getElem?] at hc
  rw [hout, List.get?_eq_getElem?, List.getElem?_map, hc]
  simp only [Option.map_some', channelLine, hid, hname, json_string_value]
  cases hf : json_object_get (some c) "fname" with
  | none => rfl
  | some w => cases w <;> rfl

/-- C5 at the listing `[{_id: "abc", name: "general", fname: null}]`: exactly
one line, `general (ID: abc)`. -/
theorem C5_channel_listing_witness :
    json_object_get channelsResponse "error" = none
    ∧ json_object_get (json_object_get channelsResponse "result") "results"
        = some (Json.array [generalChannel])
    ∧ (result_cb_browseChannels server0 channelsResponse none).out.length = 1
    ∧ (result_cb_browseChannels server0 channelsResponse none).out.get? 0
        = some { server := server0, target := none, level := MsgLevel.MSGLEVEL_CLIENTCRAP,
                 text := "general (ID: abc)" } :=
  ⟨rfl, rfl,
   (C5_channel_listing server0 channelsResponse none [generalChannel] rfl rfl).1,
   (C5_channel_listing server0 channelsResponse none [generalChannel] rfl rfl).2
     0 generalChannel "abc" "general" rfl rfl rfl⟩

/-- C6: for a response without an `error` key whose `result.messages` is the
empty array, `result_cb_loadHistory` returns with zero lines emitted; the loop
starts at index `0` and its body is never entered. -/
theorem C6_empty_history (env : Env) (server : ROCKETCHAT_SERVER_REC)
    (json userdata : JsonPtr)
    (herr : json_object_get json "error" = none)
    (hres : json_object_get (json_object_get json "result") "messages"
      = some (Json.array [])) :
    json_array_size (json_object_get (json_object_get json "result") "messages") = 0
    ∧ (result_cb_loadHistory env server json userdata).out = [] := by
  constructor
  · rw [hres]; rfl
  · simp only [result_cb_loadHistory, herr, hres, json_array_size]
    rfl

/-- C6 at a response whose `result.messages` is `[]`. -/
theorem C6_empty_history_witness :
    json_object_get emptyHistoryResponse "error" = none
    ∧ json_object_get (json_object_get emptyHistoryResponse "result") "messages"
        = some (Json.array [])
    ∧ json_array_size
        (json_object_get (json_object_get emptyHistoryResponse "result") "messages") = 0
    ∧ (result_cb_loadHistory env0 server0 emptyHistoryResponse generalContext).out = [] :=
  ⟨rfl, rfl, C6_empty_history env0 server0 emptyHistoryResponse generalContext rfl rfl⟩

/-- C7: `cmd_rocketchat_history` issues one call, whose callback is
`result_cb_loadHistory` and whose context is `{target: t}` for the window
item's target string `t`; for every context `c` and every response,
`result_cb_loadHistory` sends every line it emits to the target read from
`c.target` and hands `c` back unchanged; hence, for every window item, every
line printed for the call issued by `cmd_rocketchat_history` goes to the target
the item had when the command ran. -/
theorem C7_context_passes_through (env : Env) (data : String)
    (server : ROCKETCHAT_SERVER_REC) (item : WI_ITEM_REC) :
    (∀ t : String, item.target = some t →
      ∃ call, cmd_rocketchat_history env data server item = [call]
        ∧ call.callback.func = ResultFn.result_cb_loadHistory
        ∧ call.callback.userdata = some (Json.object [("target", Json.string t)]))
    ∧ (∀ (srv : ROCKETCHAT_SERVER_REC) (json c : JsonPtr),
        (∀ l ∈ (result_cb_loadHistory env srv json c).out,
          l.target = json_string_value (json_object_get c "target"))
        ∧ (result_cb_loadHistory env srv json c).userdata = c)
    ∧ (∃ call, cmd_rocketchat_history env data server item = [call]
        ∧ ∀ (srv : ROCKETCHAT_SERVER_REC) (json : JsonPtr),
            (∀ l ∈ (call.callback.func.run env srv json call.callback.userdata).out,
              l.target = item.target)
            ∧ (call.callback.func.run env srv json call.callback.userdata).userdata
                = call.callback.userdata) := by
  have hcb : ∀ (srv : ROCKETCHAT_SERVER_REC) (json c : JsonPtr),
      (∀ l ∈ (result_cb_loadHistory env srv json c).out,
        l.target = json_string_value (json_object_get c "target"))
      ∧ (result_cb_loadHistory env srv json c).userdata = c := by
    intro srv json c
    constructor
    · intro l hl
      unfold result_cb_loadHistory at hl
      by_cases he : (json_object_get json "error").isSome = true
      · simp [he] at hl
      · simp only [he] at hl
        exact loadHistoryLoop_target env srv _ _ _ l hl
    · unfold result_cb_loadHistory
      by_cases he : (json_object_get json "error").isSome = true <;> simp [he]
  have hctx : json_string_value (json_object_get
      (json_object_set_new json_object "target" (json_string item.target)) "target")
        = item.target := by
    cases htgt : item.target with
    | none => rfl
    | some t =>
      simp [json_string, json_object, json_object_set_new, setKey, json_object_get,
        json_string_value, List.lookup]
  refine ⟨?_, hcb, ?_⟩
  · intro t ht
    refine ⟨_, rfl, rfl, ?_⟩
    simp [rocketchat_result_callback_new, ht, json_string, json_object, json_object_set_new,
      setKey]
  · refine ⟨_, rfl, ?_⟩
    intro srv json
    constructor
    · intro l hl
      have h := (hcb srv json
        (json_object_set_new json_object "target" (json_string item.target))).1 l hl
      rw [h, hctx]
    · exact (hcb srv json _).2

/-- C7 at a history request issued in `#general` and answered with three
messages: the call carries `{target: "#general"}` and the three lines go to
`#general`. -/
theorem C7_context_passes_through_witness :
    channelItem.target = some "#general"
    ∧ (∃ call, cmd_rocketchat_history env0 "" server0 channelItem = [call]
        ∧ call.callback.func = ResultFn.result_cb_loadHistory
        ∧ call.callback.userdata = some (Json.object [("target", Json.string "#general")]))
    ∧ (∀ l ∈ (result_cb_loadHistory env0 server0 historyResponse generalContext).out,
        l.target = json_string_value (json_object_get generalContext "target"))
    ∧ (cmd_rocketchat_history env0 "" server0 channelItem).map
          (fun call => (call.callback.func.run env0 server0 historyResponse
              call.callback.userdata).out.map (fun l => l.target))
        = [[some "#general", some "#general", some "#general"]] :=
  ⟨rfl,
   (C7_context_passes_through env0 "" server0 channelItem).1 "#general" rfl,
   ((C7_context_passes_through env0 "" server0 channelItem).2.1 server0 historyResponse
      generalContext).1,
   by decide⟩

/-- C9, as stated, fails: for a window item that is not a query and whose
target is `NULL`, `json_string` gives `NULL`, the first `json_array_append`
adds nothing, and the call carries the three parameters `[null, 10, null]`. -/
theorem C9_history_request_counterexample :
    (cmd_rocketchat_history env0 "" server0 nullTargetItem).map
        (fun call => json_array_size call.params) ≠ [4]
    ∧ (cmd_rocketchat_history env0 "" server0 nullTargetItem).map
        (fun call => json_array_size call.params) = [3]
    ∧ (cmd_rocketchat_history env0 "" server0 nullTargetItem).map
        (fun call => (call.method, call.params))
      = [("loadHistory", some (Json.array [Json.null, Json.integer 10, Json.null]))] :=
  ⟨by decide, by decide, rfl⟩

/-- C9, amended: for every window item, `cmd_rocketchat_history` issues exactly
one call, on the given server and with method `loadHistory`; when the room id
given by `rocketchat_query_get_rid` (for an item of the QUERY window-item type)
or the item's target (for any other item) is a string `rid`, and not `NULL`,
the parameter list is `[rid, null, 10, null]`. -/
theorem C9_history_request (env : Env) (data : String) (server : ROCKETCHAT_SERVER_REC)
    (item : WI_ITEM_REC) :
    (cmd_rocketchat_history env data server item).map
        (fun call => (call.server, call.method, call.callback.func))
      = [(server, "loadHistory", ResultFn.result_cb_loadHistory)]
    ∧ (item.type = env.module_get_uniq_id_str "WINDOW ITEM TYPE" "QUERY" →
      ∀ rid : String, env.rocketchat_query_get_rid item = some rid →
        (cmd_rocketchat_history env data server item).map
            (fun call => (call.server, call.method, call.params))
          = [(server, "loadHistory",
              some (Json.array [Json.string rid, Json.null, Json.integer 10, Json.null]))])
    ∧ (item.type ≠ env.module_get_uniq_id_str "WINDOW ITEM TYPE" "QUERY" →
      ∀ target : String, item.target = some target →
        (cmd_rocketchat_history env data server item).map
            (fun call => (call.server, call.method, call.params))
          = [(server, "loadHistory",
              some (Json.array [Json.string target, Json.null, Json.integer 10,
                                Json.null]))]) := by
  refine ⟨rfl, ?_, ?_⟩
  · intro hq rid hrid
    simp only [cmd_rocketchat_history, hq, if_true, hrid, List.map_cons, List.map_nil]
    rfl
  · intro hq target htarget
    simp only [cmd_rocketchat_history, hq, if_false, htarget, List.map_cons, List.map_nil]
    rfl

/-- C9, amended, at a query item, where `rid` is the room id, and at a channel
item, where it is the target. -/
theorem C9_history_request_witness :
    (queryItem.type = env0.module_get_uniq_id_str "WINDOW ITEM TYPE" "QUERY"
      ∧ env0.rocketchat_query_get_rid queryItem = some "room42"
      ∧ (cmd_rocketchat_history env0 "" server0 queryItem).map
          (fun call => (call.server, call.method, call.params))
        = [(server0, "loadHistory",
            some (Json.array [Json.string "room42", Json.null, Json.integer 10, Json.null]))])
    ∧ (channelItem.type ≠ env0.module_get_uniq_id_str "WINDOW ITEM TYPE" "QUERY"
      ∧ channelItem.target = some "#general"
      ∧ (cmd_rocketchat_history env0 "" server0 channelItem).map
          (fun call => (call.server, call.method, call.params))
        = [(server0, "loadHistory",
            some (Json.array [Json.string "#general", Json.null, Json.integer 10,
                              Json.null]))]) :=
  ⟨⟨rfl, rfl, (C9_history_request env0 "" server0 queryItem).2.1 rfl "room42" rfl⟩,
   ⟨by decide, rfl,
    (C9_history_request env0 "" server0 channelItem).2.2 (by decide) "#general" rfl⟩⟩

/-- C10: for a response without an `error` key, when `result` is absent, or
`result.results` (for `result_cb_browseChannels`) or `result.messages` (for
`result_cb_loadHistory`) is absent or is not a JSON array, the callback returns
with zero lines emitted. -/
theorem C10_malformed_success_is_silent (env : Env) (server : ROCKETCHAT_SERVER_REC)
    (json userdata : JsonPtr)
    (herr : json_object_get json "error" = none) :
    ((json_object_get json "result" = none
        ∨ json_object_get (json_object_get json "result") "results" = none
        ∨ (∀ xs, json_object_get (json_object_get json "result") "results"
              ≠ some (Json.array xs))) →
      (result_cb_browseChannels server json userdata).out = [])
    ∧ ((json_object_get json "result" = none
        ∨ json_object_get (json_object_get json "result") "messages" = none
        ∨ (∀ xs, json_object_get (json_object_get json "result") "messages"
              ≠ some (Json.array xs))) →
      (result_cb_loadHistory env server json userdata).out = []) := by
  have key : ∀ k : String,
      (json_object_get json "result" = none
        ∨ json_object_get (json_object_get json "result") k = none
        ∨ (∀ xs, json_object_get (json_object_get json "result") k ≠ some (Json.array xs))) →
      json_array_size (json_object_get (json_object_get json "result") k) = 0 := by
    intro k h
    apply json_array_size_of_not_array
    intro xs hxs
    rcases h with h | h | h
    · rw [h] at hxs; cases hxs
    · rw [h] at hxs; cases hxs
    · exact h xs hxs
  constructor
  · intro h
    simp only [result_cb_browseChannels, herr, key "results" h]
    rfl
  · intro h
    simp only [result_cb_loadHistory, herr, key "messages" h]
    rfl

/-- C10 at a response with no `result` and at one whose `result` holds no
list. -/
theorem C10_malformed_success_is_silent_witness :
    (json_object_get noResultResponse "error" = none
      ∧ json_object_get noResultResponse "result" = none
      ∧ (result_cb_browseChannels server0 noResultResponse none).out = []
      ∧ (result_cb_loadHistory env0 server0 noResultResponse generalContext).out = [])
    ∧ (json_object_get emptyResultResponse "error" = none
      ∧ json_object_get (json_object_get emptyResultResponse "result") "results" = none
      ∧ json_object_get (json_object_get emptyResultResponse "result") "messages" = none
      ∧ (result_cb_browseChannels server0 emptyResultResponse none).out = []
      ∧ (result_cb_loadHistory env0 server0 emptyResultResponse generalContext).out = []) :=
  ⟨⟨rfl, rfl,
    (C10_malformed_success_is_silent env0 server0 noResultResponse none rfl).1 (Or.inl rfl),
    (C10_malformed_success_is_silent env0 server0 noResultResponse generalContext rfl).2
      (Or.inl rfl)⟩,
   ⟨rfl, rfl, rfl,
    (C10_malformed_success_is_silent env0 server0 emptyResultResponse none rfl).1
      (Or.inr (Or.inl rfl)),
    (C10_malformed_success_is_silent env0 server0 emptyResultResponse generalContext rfl).2
      (Or.inr (Or.inl rfl))⟩⟩

/-! ## The pending-call registry: at-most-once delivery -/

theorem Registry.inv_empty : Registry.empty.Inv := by
  constructor
  · intro e he; cases he
  · exact List.nodup_nil

theorem find_erase_of_nodup (l : List Entry) (e : Entry)
    (hnd : (l.map Entry.id).Nodup) (he : e ∈ l) :
    l.find? (fun x => x.id == e.id) = some e
    ∧ ∀ x ∈ l.eraseP (fun x => x.id == e.id), x.id ≠ e.id := by
  induction l with
  | nil => cases he
  | cons a rest ih =>
    rw [List.map_cons, List.nodup_cons] at hnd
    obtain ⟨ha, hrest⟩ := hnd
    rcases List.mem_cons.mp he with h | h
    · subst h
      constructor
      · simp [List.find?]
      · intro x hx
        simp only [List.eraseP_cons, beq_self_eq_true, cond_true] at hx
        intro hxe
        exact ha (hxe ▸ List.mem_map_of_mem Entry.id hx)
    · have hne : a.id ≠ e.id := by
        intro hae
        exact ha (hae ▸ List.mem_map_of_mem Entry.id h)
      have hb : (a.id == e.id) = false := by simpa using hne
      obtain ⟨h1, h2⟩ := ih hrest h
      constructor
      · simp [List.find?, hb, h1]
      · intro x hx
        simp only [List.eraseP_cons, hb, cond_false] at hx
        rcases List.mem_cons.mp hx with hx | hx
        · rw [hx]; exact hne
        · exact h2 x hx

theorem Registry.inv_step (r : Registry) (op : Op) (h : r.Inv) : (r.step op).1.Inv := by
  obtain ⟨hlt, hnd⟩ := h
  cases op with
  | register cb ctx =>
    constructor
    · intro e he
      simp only [Registry.step, register, List.mem_append, List.mem_singleton] at he
      rcases he with he | he
      · exact Nat.lt_succ_of_lt (hlt e he)
      · subst he; exact Nat.lt_succ_self _
    · simp only [Registry.step, register, List.map_append, List.map_cons, List.map_nil]
      rw [List.nodup_append]
      refine ⟨hnd, List.nodup_singleton _, ?_⟩
      intro a ha hb
      rw [List.mem_singleton] at hb
      obtain ⟨e, he, hea⟩ := List.mem_map.mp ha
      have := hlt e he
      omega
  | resolve i =>
    simp only [Registry.step, resolve]
    cases hf : r.entries.find? (fun e => e.id == i) with
    | none => exact ⟨hlt, hnd⟩
    | some e =>
      constructor
      · intro x hx
        exact hlt x (List.mem_of_mem_eraseP hx)
      · exact List.Nodup.sublist ((List.eraseP_sublist _).map Entry.id) hnd
  | discard_all =>
    constructor
    · intro e he; cases he
    · exact List.nodup_nil

theorem Registry.inv_run (ops : List Op) : ∀ r : Registry, r.Inv → (r.run ops).1.Inv := by
  induction ops with
  | nil => intro r h; exact h
  | cons op rest ih =>
    intro r h
    exact ih _ (Registry.inv_step r op h)

theorem resolve_found (r : Registry) (e : Entry) (h : r.Inv) (he : e ∈ r.entries) :
    (resolve r e.id).2 = Resolved.Found e ∧ (resolve r e.id).1.Dead e.id := by
  obtain ⟨hlt, hnd⟩ := h
  obtain ⟨h1, h2⟩ := find_erase_of_nodup r.entries e hnd he
  have hr : resolve r e.id
      = ({ r with entries := r.entries.eraseP (fun x => x.id == e.id) }, Resolved.Found e) := by
    simp only [resolve, h1]
  rw [hr]
  exact ⟨rfl, hlt e he, h2⟩

theorem resolve_dead (r : Registry) (i : Nat) (h : r.Dead i) :
    resolve r i = (r, Resolved.NotFound) := by
  have hf : r.entries.find? (fun e => e.id == i) = none := by
    rw [List.find?_eq_none]
    intro x hx
    simpa using h.2 x hx
  simp only [resolve, hf]

theorem Registry.dead_step (r : Registry) (op : Op) (i : Nat) (h : r.Dead i) :
    (r.step op).1.Dead i ∧ ∀ e ∈ (r.step op).2, e.id ≠ i := by
  obtain ⟨hlt, hne⟩ := h
  cases op with
  | register cb ctx =>
    refine ⟨⟨Nat.lt_succ_of_lt hlt, ?_⟩, ?_⟩
    · intro e he
      simp only [Registry.step, register, List.mem_append, List.mem_singleton] at he
      rcases he with he | he
      · exact hne e he
      · subst he; exact Nat.ne_of_gt hlt
    · intro e he; cases he
  | resolve j =>
    simp only [Registry.step, resolve]
    cases hf : r.entries.find? (fun e => e.id == j) with
    | none => exact ⟨⟨hlt, hne⟩, fun e he => by cases he⟩
    | some x =>
      refine ⟨⟨hlt, fun e he => hne e (List.mem_of_mem_eraseP he)⟩, ?_⟩
      intro e he
      rw [List.mem_singleton] at he
      subst he
      exact hne e (List.mem_of_find?_eq_some hf)
  | discard_all =>
    exact ⟨⟨hlt, fun e he => by cases he⟩, fun e he => hne e he⟩

theorem Registry.dead_run (ops : List Op) (i : Nat) :
    ∀ r : Registry, r.Dead i → (r.run ops).1.Dead i ∧ ∀ e ∈ (r.run ops).2, e.id ≠ i := by
  induction ops with
  | nil => intro r h; exact ⟨h, fun e he => by cases he⟩
  | cons op rest ih =>
    intro r h
    obtain ⟨h1, h2⟩ := Registry.dead_step r op i h
    obtain ⟨h3, h4⟩ := ih _ h1
    refine ⟨h3, ?_⟩
    intro e he
    simp only [Registry.run, List.mem_append] at he
    rcases he with he | he
    · exact h2 e he
    · exact h4 e he

theorem Registry.step_delivered (r : Registry) (op : Op) (h : r.Inv) :
    ((r.step op).2.map Entry.id).Nodup ∧ ∀ e ∈ (r.step op).2, (r.step op).1.Dead e.id := by
  cases op with
  | register cb ctx =>
    exact ⟨List.nodup_nil, fun e he => by cases he⟩
  | resolve j =>
    cases hf : r.entries.find? (fun e => e.id == j) with
    | none =>
      simp only [Registry.step, resolve, hf]
      exact ⟨List.nodup_nil, fun e he => by cases he⟩
    | some x =>
      have hx : x ∈ r.entries := List.mem_of_find?_eq_some hf
      have hid : x.id = j := by simpa using List.find?_some hf
      have hr := resolve_found r x h hx
      rw [hid] at hr
      simp only [Registry.step, resolve, hf] at hr ⊢
      refine ⟨List.nodup_singleton _, ?_⟩
      intro e he
      rw [List.mem_singleton] at he
      subst he
      rw [hid]
      exact hr.2
  | discard_all =>
    refine ⟨h.2, ?_⟩
    intro e he
    exact ⟨h.1 e he, fun x hx => by cases hx⟩

theorem Registry.run_delivered_nodup (ops : List Op) :
    ∀ r : Registry, r.Inv → ((r.run ops).2.map Entry.id).Nodup := by
  induction ops with
  | nil => intro r _; exact List.nodup_nil
  | cons op rest ih =>
    intro r h
    obtain ⟨h1, h2⟩ := Registry.step_delivered r op h
    have h3 := ih _ (Registry.inv_step r op h)
    simp only [Registry.run, List.map_append]
    rw [List.nodup_append]
    refine ⟨h1, h3, ?_⟩
    intro a ha hb
    obtain ⟨e, he, hea⟩ := List.mem_map.mp ha
    obtain ⟨d, hd, hda⟩ := List.mem_map.mp hb
    exact (Registry.dead_run rest e.id _ (h2 e he)).2 d hd (hda.trans hea.symm)

/-- C8: in every registry reached from the empty one by `register`, `resolve`
and `discard_all`, resolving the id of an outstanding entry returns that entry,
and after it, whatever else happens, a further `resolve` of the same id yields
`NotFound` and no entry with that id reaches the dispatcher again.  Over any
run, each id is handed to the dispatcher at most once, so a callback is invoked
at most once per issued call. -/
theorem C8_at_most_once (ops : List Op) (e : Entry)
    (he : e ∈ (Registry.empty.run ops).1.entries) :
    (resolve (Registry.empty.run ops).1 e.id).2 = Resolved.Found e
    ∧ (∀ later : List Op,
        (resolve ((resolve (Registry.empty.run ops).1 e.id).1.run later).1 e.id).2
          = Resolved.NotFound
        ∧ ∀ d ∈ ((resolve (Registry.empty.run ops).1 e.id).1.run later).2, d.id ≠ e.id)
    ∧ (∀ (all : List Op) (i : Nat),
        ((Registry.empty.run all).2.map Entry.id).count i ≤ 1) := by
  have hinv := Registry.inv_run ops Registry.empty Registry.inv_empty
  obtain ⟨h1, h2⟩ := resolve_found _ e hinv he
  refine ⟨h1, ?_, ?_⟩
  · intro later
    obtain ⟨h3, h4⟩ := Registry.dead_run later e.id _ h2
    exact ⟨by rw [resolve_dead _ _ h3], h4⟩
  · intro all i
    exact List.nodup_iff_count_le_one.mp
      (Registry.run_delivered_nodup all Registry.empty Registry.inv_empty) i

/-- C8 at the call registered for `result_cb_browseChannels` on a fresh
connection. -/
theorem C8_at_most_once_witness :
    ({ id := 0, callback := ResultFn.result_cb_browseChannels, context := none } : Entry)
        ∈ (Registry.empty.run [Op.register ResultFn.result_cb_browseChannels none]).1.entries
    ∧ (resolve (Registry.empty.run [Op.register ResultFn.result_cb_browseChannels none]).1
          0).2
        = Resolved.Found
            { id := 0, callback := ResultFn.result_cb_browseChannels, context := none }
    ∧ (resolve ((resolve
          (Registry.empty.run [Op.register ResultFn.result_cb_browseChannels none]).1
          0).1.run [Op.resolve 0]).1 0).2 = Resolved.NotFound :=
  ⟨List.mem_cons_self _ _,
   (C8_at_most_once [Op.register ResultFn.result_cb_browseChannels none]
      { id := 0, callback := ResultFn.result_cb_browseChannels, context := none }
      (List.mem_cons_self _ _)).1,
   ((C8_at_most_once [Op.register ResultFn.result_cb_browseChannels none]
      { id := 0, callback := ResultFn.result_cb_browseChannels, context := none }
      (List.mem_cons_self _ _)).2.1 [Op.resolve 0]).1⟩

end RocketChat
